import Mathlib

/-!
Shallow embedding of the transport/traffic ETL pipeline
(`scripts/etl_pipeline.py`) and of its failure-notification helper.

DataFrames are modelled as a list of column names together with a list of
rows; a row is an association list from column name to cell value.  Cell
values mirror the pandas value universe the pipeline manipulates: strings,
numbers (exact rationals standing in for floats), datetimes (seconds since
the epoch standing in for `datetime64`), and the missing value `NaN`/`NaT`.
-/

/-- Exact rational numbers (numerator / positive denominator), kept
unnormalized so that all arithmetic reduces in the kernel.  These stand in
for the float64 values pandas uses for numeric columns. -/
structure Q where
  num : Int
  den : Nat
deriving DecidableEq

def Q.ofInt (n : Int) : Q := ⟨n, 1⟩

def Q.add (a b : Q) : Q := ⟨a.num * (b.den : Int) + b.num * (a.den : Int), a.den * b.den⟩

def Q.divNat (a : Q) (k : Nat) : Q := ⟨a.num, a.den * k⟩

def Q.sum (l : List Q) : Q := l.foldl Q.add ⟨0, 1⟩

/-- A pandas cell value: string, numeric, datetime (seconds since epoch),
or the missing value (`NaN` / `NaT` / `None` all collapse to `nan`). -/
inductive Cell where
  | str (s : String)
  | num (q : Q)
  | dt (t : Int)
  | nan
deriving DecidableEq

/-- `pd.isna` on a cell. -/
def Cell.isna : Cell → Bool
  | .nan => true
  | _ => false

/-- A row: association list from column name to cell. -/
abbrev Row := List (String × Cell)

/-- Column access on a row; an absent column reads as missing. -/
def Row.get : Row → String → Cell
  | [], _ => .nan
  | (k, v) :: r, c => if k == c then v else Row.get r c

def Row.hasCol : Row → String → Bool
  | [], _ => false
  | (k, _) :: r, c => k == c || Row.hasCol r c

/-- Column assignment on a row: overwrite an existing column in place,
or append a fresh column at the end (pandas puts new columns last). -/
def Row.set : Row → String → Cell → Row
  | [], c, v => [(c, v)]
  | (k, w) :: r, c, v => if k == c then (k, v) :: r else (k, w) :: Row.set r c v

/-- A DataFrame: ordered column names and rows. -/
structure DataFrame where
  cols : List String
  rows : List Row
deriving DecidableEq

/-- `df.dropna(subset=[c])`: keep only rows whose cell at `c` is not missing. -/
def DataFrame.dropna (df : DataFrame) (c : String) : DataFrame :=
  { df with rows := df.rows.filter (fun r => !(r.get c).isna) }

/-- `df[c] = f(df[c])`: elementwise transformation of one column
(appending the column if it was absent, as pandas assignment does). -/
def DataFrame.mapCol (df : DataFrame) (c : String) (f : Cell → Cell) : DataFrame :=
  { cols := if df.cols.contains c then df.cols else df.cols ++ [c],
    rows := df.rows.map (fun r => r.set c (f (r.get c))) }

/-- `df[c] = g(row)` for a derived column built from the whole row. -/
def DataFrame.assign (df : DataFrame) (c : String) (g : Row → Cell) : DataFrame :=
  { cols := if df.cols.contains c then df.cols else df.cols ++ [c],
    rows := df.rows.map (fun r => r.set c (g r)) }

/-- Renaming a column inside one row. -/
def rowRename (old new : String) (r : Row) : Row :=
  r.map (fun p => if p.1 == old then (new, p.2) else p)

/-- `df.rename(columns={old: new})`. -/
def DataFrame.renameCol (df : DataFrame) (old new : String) : DataFrame :=
  { cols := df.cols.map (fun c => if c == old then new else c),
    rows := df.rows.map (rowRename old new) }

/-- `pd.merge(l, r, on=keys, how="inner", suffixes=(ls, rs))`.
Key columns keep their name; a non-key column present in both frames gets
the provenance suffix of its side; output rows are, for each left row in
order, its combination with each matching right row in order (standard
inner-join cross product of key groups, no deduplication).  Cell equality
on keys includes `NaN = NaN`, as pandas merge factorization does. -/
def mergeCols (lcols rcols keys : List String) (ls rs : String) : List String :=
  lcols.map (fun c => if keys.contains c then c
                      else if rcols.contains c then c ++ ls else c)
  ++ (rcols.filter (fun c => !keys.contains c)).map
       (fun c => if lcols.contains c then c ++ rs else c)

/-- Whether a left row and a right row agree on every join key. -/
def mergeRowPred (keys : List String) (lrow rrow : Row) : Bool :=
  keys.all (fun k => Row.get lrow k == Row.get rrow k)

/-- The output row for one matching pair: all left columns (suffixing the
shared non-key names), then the right non-key columns (suffixed when
shared). -/
def mergeRowCombine (lcols rcols keys : List String) (ls rs : String)
    (lrow rrow : Row) : Row :=
  lcols.map (fun c =>
    (if keys.contains c then c
     else if rcols.contains c then c ++ ls else c, Row.get lrow c))
  ++ (rcols.filter (fun c => !keys.contains c)).map
       (fun c => (if lcols.contains c then c ++ rs else c, Row.get rrow c))

def DataFrame.merge (l r : DataFrame) (keys : List String) (ls rs : String) : DataFrame :=
  { cols := mergeCols l.cols r.cols keys ls rs,
    rows := l.rows.flatMap (fun lrow =>
      (r.rows.filter (mergeRowPred keys lrow)).map
        (mergeRowCombine l.cols r.cols keys ls rs lrow)) }

def Cell.numVal : Cell → Option Q
  | .num q => some q
  | _ => none

/-- Column mean, skipping missing values (pandas `.mean()`); the mean of an
all-missing column is missing. -/
def meanCell (cs : List Cell) : Cell :=
  let vs := cs.filterMap Cell.numVal
  if vs.isEmpty then .nan else .num ((Q.sum vs).divNat vs.length)

def dedupFirst (seen : List (List Cell)) : List (List Cell) → List (List Cell)
  | [] => []
  | x :: xs => if seen.contains x then dedupFirst seen xs
               else x :: dedupFirst (x :: seen) xs

/-- `df.groupby(keys)[aggs].mean().reset_index()`.  Raises `KeyError`
(modelled as `Except.error` carrying the offending name) when a group key
or selected column is absent; drops rows with a missing group key (pandas
`dropna=True` default); one output row per distinct key tuple. -/
def DataFrame.groupbyMean (df : DataFrame) (keys aggs : List String) :
    Except String DataFrame :=
  match keys.find? (fun k => !df.cols.contains k) with
  | some k => .error k
  | none =>
    match aggs.find? (fun c => !df.cols.contains c) with
    | some c => .error c
    | none =>
      let rows := df.rows.filter (fun r => keys.all (fun k => !(r.get k).isna))
      let ks := dedupFirst [] (rows.map (fun r => keys.map (fun k => r.get k)))
      .ok { cols := keys ++ aggs,
            rows := ks.map (fun kv =>
              let grp := rows.filter (fun r => (keys.map (fun k => r.get k)) == kv)
              (keys.zip kv)
              ++ aggs.map (fun c => (c, meanCell (grp.map (fun r => r.get c))))) }

/-! ### Timestamp parsing and hour flooring -/

def splitOnChar (c : Char) : List Char → List (List Char)
  | [] => [[]]
  | x :: xs =>
    let r := splitOnChar c xs
    if x = c then [] :: r
    else match r with
      | [] => [[x]]
      | y :: ys => (x :: y) :: ys

def digitsToNat? (l : List Char) : Option Nat :=
  if l ≠ [] ∧ l.all Char.isDigit
  then some (l.foldl (fun a ch => a * 10 + (ch.toNat - 48)) 0)
  else none

def isLeap (y : Nat) : Bool := (y % 4 == 0 && y % 100 != 0) || y % 400 == 0

def daysInMonth (y m : Nat) : Nat :=
  if m == 2 then (if isLeap y then 29 else 28)
  else if m == 4 || m == 6 || m == 9 || m == 11 then 30
  else 31

/-- Days from 1970-01-01 to the start of year `y`. -/
def daysUpToYear (y : Nat) : Nat :=
  ((List.range (y - 1970)).map (fun i => if isLeap (1970 + i) then 366 else 365)).sum

/-- Days from the start of year `y` to the start of its month `m`. -/
def daysUpToMonth (y m : Nat) : Nat :=
  ((List.range (m - 1)).map (fun i => daysInMonth y (i + 1))).sum

def parseDate (l : List Char) : Option Int :=
  match (splitOnChar '-' l).mapM digitsToNat? with
  | some [y, m, d] =>
    if 1970 ≤ y ∧ 1 ≤ m ∧ m ≤ 12 ∧ 1 ≤ d ∧ d ≤ daysInMonth y m
    then some ((86400 : Int) * ((daysUpToYear y + daysUpToMonth y m + (d - 1) : Nat) : Int))
    else none
  | _ => none

def parseTime (l : List Char) : Option Int :=
  match (splitOnChar ':' l).mapM digitsToNat? with
  | some [h, mi, s] =>
    if h < 24 ∧ mi < 60 ∧ s < 60
    then some ((3600 : Int) * (h : Int) + 60 * (mi : Int) + (s : Int))
    else none
  | _ => none

/-- Model of `pd.to_datetime(x, errors="coerce")` on one value: parse
`YYYY-MM-DD[ HH:MM:SS]` strings to seconds since the epoch, keep values
that are already datetimes, coerce everything unparseable to `NaT`. -/
def parseDatetimeString (s : String) : Option Int :=
  match splitOnChar ' ' s.toList with
  | [d] => parseDate d
  | [d, t] => do
    let dd ← parseDate d
    let tt ← parseTime t
    pure (dd + tt)
  | _ => none

def parseDatetime : Cell → Cell
  | .str s => match parseDatetimeString s with
              | some t => .dt t
              | none => .nan
  | .dt t => .dt t
  | _ => .nan

/-- Model of `pd.to_numeric(x, errors="coerce")` on one value: decimal
strings (optional sign, optional fractional part) become numbers,
numbers stay, datetimes convert to their integer epoch value, everything
else coerces to `NaN`. -/
def parseDecimal (l : List Char) : Option Q :=
  let core : List Char → Option Q := fun body =>
    match splitOnChar '.' body with
    | [ip] => (digitsToNat? ip).map (fun n => ⟨(n : Int), 1⟩)
    | [ip, fp] => do
      let n ← digitsToNat? ip
      let f ← digitsToNat? fp
      pure ⟨(n : Int) * ((10 : Int) ^ fp.length) + (f : Int), 10 ^ fp.length⟩
    | _ => none
  match l with
  | '-' :: body => (core body).map (fun q => ⟨-q.num, q.den⟩)
  | _ => core l

def coerceNumeric : Cell → Cell
  | .num q => .num q
  | .str s => match parseDecimal s.toList with
              | some q => .num q
              | none => .nan
  | .dt t => .num ⟨t, 1⟩
  | .nan => .nan

/-- `ts.dt.floor("H")` on seconds since the epoch: truncate to the start of
the containing hour (toward minus infinity, matching pandas). -/
def floorHour (t : Int) : Int := t - t % 3600

def floorHourCell : Cell → Cell
  | .dt t => .dt (floorHour t)
  | _ => .nan

/-! ### The pipeline stages (`scripts/etl_pipeline.py`) -/

def requiredPublicCols : List String := ["route_id", "city", "bus_stop", "ridership", "timing"]

def requiredTrafficCols : List String := ["route_id", "avg_speed", "congestion_index", "timestamp"]

/-- `load_public_transport_csv` after the file/URL has been read into a
DataFrame: required-column check (error names exactly the missing
columns), then the `timing → timestamp` rename. -/
def load_public_transport_csv (df : DataFrame) : Except (List String) DataFrame :=
  let missing := requiredPublicCols.filter (fun c => !df.cols.contains c)
  if missing.isEmpty then .ok (df.renameCol "timing" "timestamp") else .error missing

/-- `load_traffic_data` after the JSON/API payload has been read into a
DataFrame: required-field check, no rename. -/
def load_traffic_data (df : DataFrame) : Except (List String) DataFrame :=
  let missing := requiredTrafficCols.filter (fun c => !df.cols.contains c)
  if missing.isEmpty then .ok df else .error missing

def numericCols : List String := ["ridership", "avg_speed", "congestion_index"]

/-- `validate_and_clean(df, time_col)`.  The first result component is the
caller's frame after the call: `dropna` returns a new frame, so every later
assignment lands on the copy and the argument is returned unchanged.  The
second component is the cleaned frame: drop rows missing the time column,
parse it (coercing failures), drop rows whose parse failed, coerce each
numeric column that is present, then drop rows whose coercion failed. -/
def validate_and_clean (df : DataFrame) (time_col : String) : DataFrame × DataFrame :=
  let d1 := df.dropna time_col
  let d2 := d1.mapCol time_col parseDatetime
  let d3 := d2.dropna time_col
  let d4 := if d3.cols.contains "ridership" then d3.mapCol "ridership" coerceNumeric else d3
  let d5 := if d4.cols.contains "avg_speed" then d4.mapCol "avg_speed" coerceNumeric else d4
  let d6 := if d5.cols.contains "congestion_index"
            then d5.mapCol "congestion_index" coerceNumeric else d5
  let present := numericCols.filter (fun c => d6.cols.contains c)
  (df, present.foldl (fun d c => d.dropna c) d6)

/-- `build_unified_table(pub_df, traf_df)`.  The first two components are
the caller's frames after the call: column assignment mutates the argument
frames in place, so each comes back with a new `timestamp_hour` column.
The third component is the merged table with `timestamp_hour` renamed to
`event_hour`. -/
def build_unified_table (pub_df traf_df : DataFrame) :
    DataFrame × DataFrame × DataFrame :=
  let pub := pub_df.assign "timestamp_hour" (fun r => floorHourCell (r.get "timestamp"))
  let traf := traf_df.assign "timestamp_hour" (fun r => floorHourCell (r.get "timestamp"))
  let merged := DataFrame.merge pub traf ["route_id", "timestamp_hour"] "_public" "_traffic"
  (pub, traf, merged.renameCol "timestamp_hour" "event_hour")

/-- `create_summary_report` up to the file write: group by
`(route_id, city_public, bus_stop)`, average `ridership` and
`congestion_index`, rename to `avg_` names.  A missing group or selected
column is a `KeyError`, modelled as `Except.error` carrying its name. -/
def create_summary_report (df : DataFrame) : Except String DataFrame :=
  (df.groupbyMean ["route_id", "city_public", "bus_stop"] ["ridership", "congestion_index"]).map
    (fun s => (s.renameCol "ridership" "avg_ridership").renameCol
                "congestion_index" "avg_congestion_index")

/-- The three destinations `run_pipeline` writes: the processed CSV, the
database table (`to_sql(..., if_exists="replace")`), and the report CSV.
`none` means the destination has never been written. -/
structure Dest where
  processedCsv : Option DataFrame
  dbTable : Option DataFrame
  report : Option DataFrame
deriving DecidableEq

inductive PipeError where
  | schemaPublic (missing : List String)
  | schemaTraffic (missing : List String)
  | reportKeyError (key : String)
deriving DecidableEq

/-- `run_pipeline` as a transformer of the destination state: load both
sources (fail fast on schema violations, leaving every destination
untouched), clean, join, write the unified table to the CSV and the
database (each a full replace), then build and write the summary report.
An error return models the exception propagating out of `run_pipeline`. -/
def run_pipeline (pubRaw trafRaw : DataFrame) (d : Dest) : Dest × Option PipeError :=
  match load_public_transport_csv pubRaw with
  | .error m => (d, some (.schemaPublic m))
  | .ok pub0 =>
    match load_traffic_data trafRaw with
    | .error m => (d, some (.schemaTraffic m))
    | .ok traf0 =>
      let pub := (validate_and_clean pub0 "timestamp").2
      let traf := (validate_and_clean traf0 "timestamp").2
      let unified := (build_unified_table pub traf).2.2
      let d1 := { d with processedCsv := some unified }
      let d2 := { d1 with dbTable := some unified }
      match create_summary_report unified with
      | .error k => (d2, some (.reportKeyError k))
      | .ok s => ({ d2 with report := some s }, none)

/-! ### The failure-notification helper (`send_failure_email`) -/

structure SmtpConfig where
  smtpHost : Option String
  smtpPort : Option String
  smtpUser : Option String
  smtpPass : Option String
  alertTo : Option String
  alertFrom : Option String
deriving DecidableEq

/-- How a call to `send_failure_email` can end.  `raisedValueError` is the
uncaught exception from `int(os.getenv("SMTP_PORT", "587"))`; every other
outcome is a normal return (the SMTP block's own failures are caught,
logged, and swallowed — `sendFailedLogged`). -/
inductive EmailResult where
  | raisedValueError
  | notConfigured
  | sent
  | sendFailedLogged
deriving DecidableEq

def parseIntString (s : String) : Option Int :=
  match s.toList with
  | '-' :: body => (digitsToNat? body).map (fun n => -(n : Int))
  | l => (digitsToNat? l).map (fun n => (n : Int))

/-- `send_failure_email(subject, body)` over an explicit environment.
`transportOk` abstracts whether the SMTP transaction inside the
`try` block succeeds.  An unset variable is `none`; Python truthiness
makes an empty string count as unset in the guard.  The sender defaults to
the SMTP user (`os.getenv("ALERT_EMAIL_FROM", smtp_user or "")`). -/
def send_failure_email (cfg : SmtpConfig) (transportOk : Bool) : EmailResult :=
  match parseIntString (cfg.smtpPort.getD "587") with
  | none => .raisedValueError
  | some _ =>
    let hostS := cfg.smtpHost.getD ""
    let userS := cfg.smtpUser.getD ""
    let passS := cfg.smtpPass.getD ""
    let toS := cfg.alertTo.getD ""
    let fromS := cfg.alertFrom.getD userS
    if !hostS.isEmpty && !userS.isEmpty && !passS.isEmpty && !toS.isEmpty && !fromS.isEmpty
    then (if transportOk then .sent else .sendFailedLogged)
    else .notConfigured

/-! ### Structured views of cleaned records, and the spec scenario inputs -/

/-- A cleaned public-transport record: arbitrary cells for the string and
numeric fields, and a timestamp guaranteed to be a datetime. -/
structure PubRec where
  route_id : Cell
  city : Cell
  bus_stop : Cell
  ridership : Cell
  ts : Int
deriving DecidableEq

def PubRec.toRow (p : PubRec) : Row :=
  [("route_id", p.route_id), ("city", p.city), ("bus_stop", p.bus_stop),
   ("ridership", p.ridership), ("timestamp", .dt p.ts)]

def pubFrame (l : List PubRec) : DataFrame :=
  ⟨["route_id", "city", "bus_stop", "ridership", "timestamp"], l.map PubRec.toRow⟩

/-- A cleaned traffic record. -/
structure TrafRec where
  route_id : Cell
  avg_speed : Cell
  congestion_index : Cell
  ts : Int
deriving DecidableEq

def TrafRec.toRow (t : TrafRec) : Row :=
  [("route_id", t.route_id), ("avg_speed", t.avg_speed),
   ("congestion_index", t.congestion_index), ("timestamp", .dt t.ts)]

def trafFrame (l : List TrafRec) : DataFrame :=
  ⟨["route_id", "avg_speed", "congestion_index", "timestamp"], l.map TrafRec.toRow⟩

/-- The join predicate of the unified table: equal route ids and equal
hour buckets. -/
def joinMatch (p : PubRec) (t : TrafRec) : Bool :=
  p.route_id == t.route_id && floorHour p.ts == floorHour t.ts

/-- The unified row produced from one matching pair. -/
def unifiedRow (p : PubRec) (t : TrafRec) : Row :=
  [("route_id", p.route_id), ("city", p.city), ("bus_stop", p.bus_stop),
   ("ridership", p.ridership), ("timestamp_public", .dt p.ts),
   ("event_hour", .dt (floorHour p.ts)),
   ("avg_speed", t.avg_speed), ("congestion_index", t.congestion_index),
   ("timestamp_traffic", .dt t.ts)]

/-- The spec scenario public row:
`{route_id: "R1", city: "Pune", bus_stop: "S1", ridership: 120, timing: "2025-01-01 08:10:00"}`. -/
def scenarioPublicRaw : DataFrame :=
  ⟨["route_id", "city", "bus_stop", "ridership", "timing"],
   [[("route_id", .str "R1"), ("city", .str "Pune"), ("bus_stop", .str "S1"),
     ("ridership", .num ⟨120, 1⟩), ("timing", .str "2025-01-01 08:10:00")]]⟩

/-- The spec scenario traffic row:
`{route_id: "R1", avg_speed: 18.5, congestion_index: 0.7, timestamp: "2025-01-01 08:45:00"}`. -/
def scenarioTrafficRaw : DataFrame :=
  ⟨["route_id", "avg_speed", "congestion_index", "timestamp"],
   [[("route_id", .str "R1"), ("avg_speed", .num ⟨185, 10⟩),
     ("congestion_index", .num ⟨7, 10⟩), ("timestamp", .str "2025-01-01 08:45:00")]]⟩

def emptyDest : Dest := ⟨none, none, none⟩

/-- A destination state holding a stale report left over from some earlier
run on different data. -/
def staleDest : Dest :=
  ⟨none, none, some ⟨["route_id", "city_public", "bus_stop", "avg_ridership",
                      "avg_congestion_index"],
                     [[("route_id", .str "OLD")]]⟩⟩

/-! ### Basic row lemmas -/

theorem Row.get_set_self (r : Row) (c : String) (v : Cell) :
    Row.get (r.set c v) c = v := by
  induction r with
  | nil => simp [Row.set, Row.get]
  | cons p r ih =>
    obtain ⟨k, w⟩ := p
    cases hk : (k == c) with
    | true => simp [Row.set, Row.get, hk]
    | false => simp [Row.set, Row.get, hk, ih]

theorem Row.get_set_ne (r : Row) (c c' : String) (v : Cell) (h : c' ≠ c) :
    Row.get (r.set c v) c' = Row.get r c' := by
  have hcc : (c == c') = false := by
    simp only [beq_eq_false_iff_ne]; exact fun hh => h hh.symm
  induction r with
  | nil => simp [Row.set, Row.get, hcc]
  | cons p r ih =>
    obtain ⟨k, w⟩ := p
    cases hk : (k == c) with
    | true =>
      have hk' : (k == c') = false := by
        simp only [beq_iff_eq] at hk
        simp only [beq_eq_false_iff_ne]
        exact fun hh => h (hh ▸ hk)
      simp [Row.set, Row.get, hk, hk']
    | false => simp [Row.set, Row.get, hk, ih]

theorem Row.set_eq_append (r : Row) (c : String) (v : Cell)
    (h : r.hasCol c = false) : r.set c v = r ++ [(c, v)] := by
  induction r with
  | nil => simp [Row.set]
  | cons p r ih =>
    obtain ⟨k, w⟩ := p
    simp only [Row.hasCol, Bool.or_eq_false_iff] at h
    simp [Row.set, h.1, ih h.2]

/-! ### C7: hour flooring -/

/-- C7: hour-flooring is idempotent (both on raw epoch values and on
cells), and it truncates minutes and seconds toward the start of the
containing hour with no rounding: a timestamp at minute `m < 60`,
second `s < 60` of hour `h` floors to the start of hour `h` itself. -/
theorem hour_floor_idempotent_c7 :
    (∀ c : Cell, floorHourCell (floorHourCell c) = floorHourCell c) ∧
    (∀ t : Int, floorHour (floorHour t) = floorHour t) ∧
    (∀ h m s : Int, 0 ≤ m → m < 60 → 0 ≤ s → s < 60 →
      floorHour (h * 3600 + m * 60 + s) = h * 3600) := by
  have hidem : ∀ t : Int, floorHour (floorHour t) = floorHour t := by
    intro t; unfold floorHour; omega
  refine ⟨?_, hidem, ?_⟩
  · intro c
    cases c with
    | dt t => simpa [floorHourCell] using hidem t
    | str s => rfl
    | num q => rfl
    | nan => rfl
  · intro h m s hm0 hm hs0 hs
    unfold floorHour
    omega

theorem hour_floor_idempotent_c7_witness :
    floorHour (10 * 3600 + 45 * 60 + 7) = 10 * 3600 ∧
    floorHourCell (floorHourCell (.dt 3929)) = floorHourCell (.dt 3929) :=
  ⟨hour_floor_idempotent_c7.2.2 10 45 7 (by decide) (by decide) (by decide) (by decide),
   hour_floor_idempotent_c7.1 (.dt 3929)⟩

/-! ### C10: the join stage mutates its argument frames -/

/-- C10: `build_unified_table` hands back both argument frames with a new
`timestamp_hour` column appended, holding the hour-floored timestamps; in
particular neither caller-visible frame is left unchanged. -/
theorem join_mutates_inputs_c10 (pub traf : DataFrame)
    (hp : pub.cols.contains "timestamp_hour" = false)
    (hpr : ∀ r ∈ pub.rows, r.hasCol "timestamp_hour" = false)
    (ht : traf.cols.contains "timestamp_hour" = false)
    (htr : ∀ r ∈ traf.rows, r.hasCol "timestamp_hour" = false) :
    ((build_unified_table pub traf).1.cols = pub.cols ++ ["timestamp_hour"] ∧
     (build_unified_table pub traf).1.rows = pub.rows.map
       (fun r => r ++ [("timestamp_hour", floorHourCell (Row.get r "timestamp"))]) ∧
     (build_unified_table pub traf).1 ≠ pub) ∧
    ((build_unified_table pub traf).2.1.cols = traf.cols ++ ["timestamp_hour"] ∧
     (build_unified_table pub traf).2.1.rows = traf.rows.map
       (fun r => r ++ [("timestamp_hour", floorHourCell (Row.get r "timestamp"))]) ∧
     (build_unified_table pub traf).2.1 ≠ traf) := by
  have main : ∀ (df : DataFrame), df.cols.contains "timestamp_hour" = false →
      (∀ r ∈ df.rows, r.hasCol "timestamp_hour" = false) →
      (df.assign "timestamp_hour" (fun r => floorHourCell (r.get "timestamp"))).cols
        = df.cols ++ ["timestamp_hour"] ∧
      (df.assign "timestamp_hour" (fun r => floorHourCell (r.get "timestamp"))).rows
        = df.rows.map (fun r => r ++ [("timestamp_hour", floorHourCell (Row.get r "timestamp"))]) ∧
      df.assign "timestamp_hour" (fun r => floorHourCell (r.get "timestamp")) ≠ df := by
    intro df hcols hrows
    have hc : (df.assign "timestamp_hour" (fun r => floorHourCell (r.get "timestamp"))).cols
        = df.cols ++ ["timestamp_hour"] := by
      simp only [DataFrame.assign, hcols, Bool.false_eq_true, if_false]
    have hr : (df.assign "timestamp_hour" (fun r => floorHourCell (r.get "timestamp"))).rows
        = df.rows.map (fun r => r ++ [("timestamp_hour", floorHourCell (Row.get r "timestamp"))]) := by
      simp only [DataFrame.assign]
      exact List.map_congr_left (fun r hrmem => Row.set_eq_append r _ _ (hrows r hrmem))
    refine ⟨hc, hr, fun heq => ?_⟩
    have h2 : df.cols ++ ["timestamp_hour"] = df.cols := by rw [← hc, heq]
    have h3 := congrArg List.length h2
    simp only [List.length_append, List.length_cons, List.length_nil] at h3
    omega
  have h1 := main pub hp hpr
  have h2 := main traf ht htr
  exact ⟨h1, h2⟩

theorem join_mutates_inputs_c10_witness :
    ((build_unified_table (pubFrame [⟨.str "R1", .str "Pune", .str "S1", .num ⟨120, 1⟩, 29400⟩])
        (trafFrame [])).1.cols
      = ["route_id", "city", "bus_stop", "ridership", "timestamp", "timestamp_hour"]) := by
  have h := join_mutates_inputs_c10
    (pubFrame [⟨.str "R1", .str "Pune", .str "S1", .num ⟨120, 1⟩, 29400⟩]) (trafFrame [])
    (by decide) (by decide) (by decide) (by decide)
  exact h.1.1.trans (by decide)

/-! ### C5: schema violations fail fast with zero destination writes -/

/-- C5: if a required column is missing from the public source, the reader
errors with exactly the missing column set and the run ends with every
destination untouched; if the public source is fine but the traffic source
is missing required fields, the traffic reader errors the same way with
zero destination writes.  The error value depends only on the observed
columns, never on the rows. -/
theorem schema_violation_fail_fast_c5 (pubRaw trafRaw : DataFrame) (d : Dest) :
    (requiredPublicCols.filter (fun c => !pubRaw.cols.contains c) ≠ [] →
      load_public_transport_csv pubRaw
        = .error (requiredPublicCols.filter (fun c => !pubRaw.cols.contains c)) ∧
      run_pipeline pubRaw trafRaw d
        = (d, some (.schemaPublic
            (requiredPublicCols.filter (fun c => !pubRaw.cols.contains c))))) ∧
    (requiredPublicCols.filter (fun c => !pubRaw.cols.contains c) = [] →
     requiredTrafficCols.filter (fun c => !trafRaw.cols.contains c) ≠ [] →
      load_traffic_data trafRaw
        = .error (requiredTrafficCols.filter (fun c => !trafRaw.cols.contains c)) ∧
      run_pipeline pubRaw trafRaw d
        = (d, some (.schemaTraffic
            (requiredTrafficCols.filter (fun c => !trafRaw.cols.contains c))))) := by
  constructor
  · intro hmiss
    have hne : (requiredPublicCols.filter (fun c => !pubRaw.cols.contains c)).isEmpty = false := by
      cases hcase : (requiredPublicCols.filter (fun c => !pubRaw.cols.contains c)).isEmpty with
      | false => rfl
      | true => exact absurd (List.isEmpty_iff.mp hcase) hmiss
    have hload : load_public_transport_csv pubRaw
        = .error (requiredPublicCols.filter (fun c => !pubRaw.cols.contains c)) := by
      simp only [load_public_transport_csv]
      rw [hne]
      rfl
    exact ⟨hload, by simp only [run_pipeline, hload]⟩
  · intro hpub hmiss
    have hpe : (requiredPublicCols.filter (fun c => !pubRaw.cols.contains c)).isEmpty = true := by
      rw [hpub]; rfl
    have hne : (requiredTrafficCols.filter (fun c => !trafRaw.cols.contains c)).isEmpty = false := by
      cases hcase : (requiredTrafficCols.filter (fun c => !trafRaw.cols.contains c)).isEmpty with
      | false => rfl
      | true => exact absurd (List.isEmpty_iff.mp hcase) hmiss
    have hloadp : load_public_transport_csv pubRaw
        = .ok (pubRaw.renameCol "timing" "timestamp") := by
      simp only [load_public_transport_csv]
      rw [hpe]
      rfl
    have hload : load_traffic_data trafRaw
        = .error (requiredTrafficCols.filter (fun c => !trafRaw.cols.contains c)) := by
      simp only [load_traffic_data]
      rw [hne]
      rfl
    exact ⟨hload, by simp only [run_pipeline, hloadp, hload]⟩

theorem schema_violation_fail_fast_c5_witness :
    run_pipeline (DataFrame.mk ["route_id", "city", "bus_stop", "ridership"]
        [[("route_id", .str "R1")]]) scenarioTrafficRaw staleDest
      = (staleDest, some (.schemaPublic ["timing"])) := by
  have h := (schema_violation_fail_fast_c5
    (DataFrame.mk ["route_id", "city", "bus_stop", "ridership"] [[("route_id", .str "R1")]])
    scenarioTrafficRaw staleDest).1 (by decide)
  exact h.2.trans (by decide)

/-! ### C9: the failure-notification helper -/

/-- A configuration with every SMTP setting present except the sender
address (`ALERT_EMAIL_FROM` unset). -/
def senderlessConfig : SmtpConfig :=
  ⟨some "smtp.example.com", none, some "mailer", some "hunter2", some "ops@example.com", none⟩

/-- C9 counterexample: with the sender address absent (but host, user,
password and recipient present), `send_failure_email` is NOT a no-op — it
sends, because the sender silently defaults to the SMTP user. -/
theorem sender_default_sends_c9 :
    senderlessConfig.alertFrom = none ∧
    send_failure_email senderlessConfig true = .sent := by
  constructor
  · rfl
  · decide

/-- C9 as amended: provided `SMTP_PORT` is unset or parses as an integer,
absence (or emptiness) of any of SMTP host, SMTP user, SMTP password, or
recipient makes `send_failure_email` a no-op returning normally; no call
ends in the uncaught `ValueError`; and when the SMTP transaction itself
fails the call still returns normally (failure logged, not re-raised).
An absent sender address alone does not cause a no-op: it defaults to the
SMTP user. -/
theorem notification_noop_amended_c9 (cfg : SmtpConfig) (ok : Bool)
    (hport : (parseIntString (cfg.smtpPort.getD "587")).isSome = true) :
    ((cfg.smtpHost.getD "").isEmpty = true ∨ (cfg.smtpUser.getD "").isEmpty = true ∨
     (cfg.smtpPass.getD "").isEmpty = true ∨ (cfg.alertTo.getD "").isEmpty = true →
       send_failure_email cfg ok = .notConfigured) ∧
    send_failure_email cfg ok ≠ .raisedValueError ∧
    (send_failure_email cfg false = .notConfigured ∨
     send_failure_email cfg false = .sendFailedLogged) := by
  obtain ⟨n, hp⟩ := Option.isSome_iff_exists.mp hport
  refine ⟨?_, ?_, ?_⟩
  · intro hmiss
    simp only [send_failure_email, hp]
    rcases hmiss with h | h | h | h <;> simp [h]
  · simp only [send_failure_email, hp]
    split
    · split <;> simp
    · simp
  · simp only [send_failure_email, hp]
    split
    · right; rfl
    · left; rfl

theorem notification_noop_amended_c9_witness :
    send_failure_email ⟨none, none, some "mailer", some "hunter2", some "ops@example.com",
      some "alerts@example.com"⟩ true = .notConfigured :=
  (notification_noop_amended_c9 _ true (by decide)).1 (Or.inl (by decide))

/-! ### Characterizing the cleaner -/

/-- One conditional numeric-coercion step of `validate_and_clean`, acting
on a single row: coerce column `c` only when the frame declares it. -/
def coerceStep (cols : List String) (c : String) (r : Row) : Row :=
  if cols.contains c then r.set c (coerceNumeric (Row.get r c)) else r

/-- The per-row transformation `validate_and_clean` applies to a surviving
row: parse the time column, then coerce whichever of the three numeric
columns the frame declares, in source order. -/
def transformRow (cols : List String) (tc : String) (r : Row) : Row :=
  coerceStep cols "congestion_index" (coerceStep cols "avg_speed"
    (coerceStep cols "ridership" (r.set tc (parseDatetime (Row.get r tc)))))

/-- Whether a row survives all of the cleaner's drop steps: time value
present, time value parseable, and every declared numeric column coercible. -/
def survivesClean (cols : List String) (tc : String) (r : Row) : Bool :=
  !(Row.get r tc).isna &&
  (!(Row.get (r.set tc (parseDatetime (Row.get r tc))) tc).isna &&
   (numericCols.filter (fun c => cols.contains c)).all
     (fun c => !(Row.get (transformRow cols tc r) c).isna))

/-- The cleaner's action on one input row: the transformed row if it
survives every drop step, nothing otherwise. -/
def cleanRow (cols : List String) (tc : String) (r : Row) : Option Row :=
  if survivesClean cols tc r then some (transformRow cols tc r) else none

theorem foldl_dropna (cs : List String) (d : DataFrame) :
    cs.foldl (fun x c => x.dropna c) d
      = ⟨d.cols, d.rows.filter (fun r => cs.all (fun c => !(Row.get r c).isna))⟩ := by
  induction cs generalizing d with
  | nil =>
    obtain ⟨cols, rows⟩ := d
    simp [List.filter_true]
  | cons c cs ih =>
    simp only [List.foldl_cons]
    rw [ih]
    simp only [DataFrame.dropna]
    congr 1
    rw [List.filter_filter]
    apply List.filter_congr
    intro r _
    simp [Bool.and_comm]

theorem dropna_cols (d : DataFrame) (c : String) : (d.dropna c).cols = d.cols := rfl

theorem dropna_rows (d : DataFrame) (c : String) :
    (d.dropna c).rows = d.rows.filter (fun r => !(Row.get r c).isna) := rfl

theorem foldl_dropna_cols (cs : List String) (d : DataFrame) :
    (cs.foldl (fun x c => x.dropna c) d).cols = d.cols := by rw [foldl_dropna]

theorem foldl_dropna_rows (cs : List String) (d : DataFrame) :
    (cs.foldl (fun x c => x.dropna c) d).rows
      = d.rows.filter (fun r => cs.all (fun c => !(Row.get r c).isna)) := by
  rw [foldl_dropna]

theorem mapCol_rows (d : DataFrame) (c : String) (f : Cell → Cell) :
    (d.mapCol c f).rows = d.rows.map (fun r => r.set c (f (Row.get r c))) := rfl

theorem mapCol_cols_of_contains (d : DataFrame) (c : String) (f : Cell → Cell)
    (h : d.cols.contains c = true) : (d.mapCol c f).cols = d.cols := by
  simp only [DataFrame.mapCol]
  rw [h]
  rfl

theorem condCoerce_cols (d : DataFrame) (c : String) :
    (if d.cols.contains c then d.mapCol c coerceNumeric else d).cols = d.cols := by
  cases h : d.cols.contains c with
  | true =>
    show (d.mapCol c coerceNumeric).cols = d.cols
    simp only [DataFrame.mapCol]
    rw [h]
    rfl
  | false => rfl

theorem condCoerce_rows (d : DataFrame) (c : String) :
    (if d.cols.contains c then d.mapCol c coerceNumeric else d).rows
      = d.rows.map (coerceStep d.cols c) := by
  cases h : d.cols.contains c with
  | true =>
    show (d.mapCol c coerceNumeric).rows = d.rows.map (coerceStep d.cols c)
    simp only [DataFrame.mapCol]
    apply List.map_congr_left
    intro r _
    unfold coerceStep
    rw [h]
    rfl
  | false =>
    show d.rows = d.rows.map (coerceStep d.cols c)
    symm
    have hid : ∀ r ∈ d.rows, coerceStep d.cols c r = r := by
      intro r _
      unfold coerceStep
      rw [h]
      rfl
    calc d.rows.map (coerceStep d.cols c) = d.rows.map (fun r => r) :=
          List.map_congr_left hid
    _ = d.rows := by simp

theorem clean_chain_eq (cols : List String) (tc : String) (l : List Row) :
    ((((((l.filter (fun r => !(Row.get r tc).isna)).map
        (fun r => r.set tc (parseDatetime (Row.get r tc)))).filter
        (fun r => !(Row.get r tc).isna)).map (coerceStep cols "ridership")).map
        (coerceStep cols "avg_speed")).map (coerceStep cols "congestion_index")).filter
        (fun r => (numericCols.filter (fun c => cols.contains c)).all
          (fun c => !(Row.get r c).isna))
      = l.filterMap (cleanRow cols tc) := by
  induction l with
  | nil => rfl
  | cons r l ih =>
    simp only [List.filter_cons]
    cases h1 : (Row.get r tc).isna with
    | true =>
      have hs : survivesClean cols tc r = false := by
        simp [survivesClean, h1]
      simp only [h1, Bool.not_true, Bool.false_eq_true, if_false, List.filterMap_cons,
        cleanRow, hs, ih]
    | false =>
      simp only [h1, Bool.not_false, if_true, List.map_cons, List.filter_cons]
      cases h2 : (Row.get (r.set tc (parseDatetime (Row.get r tc))) tc).isna with
      | true =>
        have hs : survivesClean cols tc r = false := by
          simp [survivesClean, h1, h2]
        simp only [h2, Bool.not_true, Bool.false_eq_true, if_false, List.filterMap_cons,
          cleanRow, hs, ih]
      | false =>
        simp only [h2, Bool.not_false, if_true, List.map_cons, List.filter_cons]
        cases h3 : (numericCols.filter (fun c => cols.contains c)).all
            (fun c => !(Row.get (transformRow cols tc r) c).isna) with
        | true =>
          have hs : survivesClean cols tc r = true := by
            simp only [survivesClean, h1, h2, h3, Bool.not_false, Bool.true_and]
          simp only [transformRow] at h3
          simp only [h3, if_true, List.filterMap_cons, cleanRow, hs, ih, transformRow]
        | false =>
          have hs : survivesClean cols tc r = false := by
            simp only [survivesClean, h1, h2, h3, Bool.not_false, Bool.true_and]
          simp only [transformRow] at h3
          simp only [h3, Bool.false_eq_true, if_false, List.filterMap_cons, cleanRow, hs, ih]

/-- The cleaner in closed form: it returns its argument unchanged as the
caller-visible frame, keeps the column set, and its output rows are the
order-preserving `filterMap` of the per-row cleaning function over the
input rows. -/
theorem validate_and_clean_fst (df : DataFrame) (tc : String) :
    (validate_and_clean df tc).1 = df := rfl

theorem validate_and_clean_cols (df : DataFrame) (tc : String)
    (htc : df.cols.contains tc = true) :
    (validate_and_clean df tc).2.cols = df.cols := by
  simp only [validate_and_clean, foldl_dropna_cols]
  rw [condCoerce_cols, condCoerce_cols, condCoerce_cols, dropna_cols,
    mapCol_cols_of_contains (df.dropna tc) tc parseDatetime (by rw [dropna_cols]; exact htc),
    dropna_cols]

/-- The rows the cleaner returns are the order-preserving `filterMap` of
the per-row cleaning function over the input rows. -/
theorem validate_and_clean_rows (df : DataFrame) (tc : String)
    (htc : df.cols.contains tc = true) :
    (validate_and_clean df tc).2.rows = df.rows.filterMap (cleanRow df.cols tc) := by
  simp only [validate_and_clean, foldl_dropna_rows]
  rw [condCoerce_rows, condCoerce_rows, condCoerce_rows,
    condCoerce_cols, condCoerce_cols, condCoerce_cols,
    dropna_rows, dropna_cols, mapCol_rows,
    mapCol_cols_of_contains (df.dropna tc) tc parseDatetime (by rw [dropna_cols]; exact htc),
    dropna_rows, dropna_cols]
  exact clean_chain_eq df.cols tc df.rows

/-! ### Field-level facts about surviving rows -/

theorem cleanRow_some (cols : List String) (tc : String) (r0 r : Row)
    (h : cleanRow cols tc r0 = some r) :
    survivesClean cols tc r0 = true ∧ r = transformRow cols tc r0 := by
  unfold cleanRow at h
  cases hs : survivesClean cols tc r0 with
  | true =>
    rw [hs] at h
    simp only [if_pos] at h
    exact ⟨rfl, (Option.some.injEq _ _ ▸ h).symm⟩
  | false =>
    rw [hs] at h
    simp at h

theorem parseDatetime_shape (c : Cell) :
    parseDatetime c = .nan ∨ ∃ t, parseDatetime c = .dt t := by
  cases c with
  | str s =>
    cases hp : parseDatetimeString s with
    | none => left; simp [parseDatetime, hp]
    | some t => right; exact ⟨t, by simp [parseDatetime, hp]⟩
  | dt t => right; exact ⟨t, rfl⟩
  | num q => left; rfl
  | nan => left; rfl

theorem coerceNumeric_shape (c : Cell) :
    coerceNumeric c = .nan ∨ ∃ q, coerceNumeric c = .num q := by
  cases c with
  | str s =>
    cases hp : parseDecimal s.data with
    | none => left; simp [coerceNumeric, hp]
    | some q => right; exact ⟨q, by simp [coerceNumeric, hp]⟩
  | dt t => right; exact ⟨⟨t, 1⟩, rfl⟩
  | num q => right; exact ⟨q, rfl⟩
  | nan => left; rfl

theorem ne_of_contains_false (l : List String) (a b : String)
    (hl : l.contains a = false) (hb : l.contains b = true) : a ≠ b := by
  intro he
  rw [he, hb] at hl
  exact Bool.noConfusion hl

theorem coerceStep_get_ne (cols : List String) (c c' : String) (r : Row) (hne : c' ≠ c) :
    Row.get (coerceStep cols c r) c' = Row.get r c' := by
  unfold coerceStep
  cases h : cols.contains c with
  | true => exact Row.get_set_ne r c c' _ hne
  | false => rfl

theorem coerceStep_get_self (cols : List String) (c : String) (r : Row)
    (hcc : cols.contains c = true) :
    Row.get (coerceStep cols c r) c = coerceNumeric (Row.get r c) := by
  unfold coerceStep
  rw [hcc]
  exact Row.get_set_self r c _

theorem transform_get_time (cols : List String) (tc : String)
    (hdisj : numericCols.contains tc = false) (r0 : Row) :
    Row.get (transformRow cols tc r0) tc = parseDatetime (Row.get r0 tc) := by
  have h1 : tc ≠ "ridership" := ne_of_contains_false numericCols tc "ridership" hdisj (by decide)
  have h2 : tc ≠ "avg_speed" := ne_of_contains_false numericCols tc "avg_speed" hdisj (by decide)
  have h3 : tc ≠ "congestion_index" :=
    ne_of_contains_false numericCols tc "congestion_index" hdisj (by decide)
  unfold transformRow
  rw [coerceStep_get_ne cols "congestion_index" tc _ h3,
    coerceStep_get_ne cols "avg_speed" tc _ h2,
    coerceStep_get_ne cols "ridership" tc _ h1,
    Row.get_set_self]

theorem transform_get_num (cols : List String) (tc : String) (r0 : Row) (c : String)
    (hcn : numericCols.contains c = true) (hcc : cols.contains c = true) :
    ∃ x, Row.get (transformRow cols tc r0) c = coerceNumeric x := by
  have hmem : c ∈ numericCols := List.elem_iff.mp hcn
  have hcases : c = "ridership" ∨ c = "avg_speed" ∨ c = "congestion_index" := by
    simpa [numericCols] using hmem
  rcases hcases with rfl | rfl | rfl
  · refine ⟨Row.get (r0.set tc (parseDatetime (Row.get r0 tc))) "ridership", ?_⟩
    unfold transformRow
    rw [coerceStep_get_ne cols "congestion_index" "ridership" _ (by decide),
      coerceStep_get_ne cols "avg_speed" "ridership" _ (by decide),
      coerceStep_get_self cols "ridership" _ hcc]
  · refine ⟨Row.get (coerceStep cols "ridership"
      (r0.set tc (parseDatetime (Row.get r0 tc)))) "avg_speed", ?_⟩
    unfold transformRow
    rw [coerceStep_get_ne cols "congestion_index" "avg_speed" _ (by decide),
      coerceStep_get_self cols "avg_speed" _ hcc]
  · refine ⟨Row.get (coerceStep cols "avg_speed" (coerceStep cols "ridership"
      (r0.set tc (parseDatetime (Row.get r0 tc))))) "congestion_index", ?_⟩
    unfold transformRow
    rw [coerceStep_get_self cols "congestion_index" _ hcc]

theorem cleanRow_some_fields (cols : List String) (tc : String)
    (hdisj : numericCols.contains tc = false) (r0 r : Row)
    (h : cleanRow cols tc r0 = some r) :
    (∃ n, Row.get r tc = .dt n) ∧
    (∀ c, numericCols.contains c = true → cols.contains c = true →
      ∃ q, Row.get r c = .num q) := by
  obtain ⟨hs, hr⟩ := cleanRow_some cols tc r0 r h
  subst hr
  unfold survivesClean at hs
  rw [Bool.and_eq_true, Bool.and_eq_true] at hs
  obtain ⟨hs1, hs2, hs3⟩ := hs
  constructor
  · rw [transform_get_time cols tc hdisj r0]
    rw [Row.get_set_self] at hs2
    rcases parseDatetime_shape (Row.get r0 tc) with hnan | ⟨t, ht⟩
    · rw [hnan] at hs2
      exact absurd hs2 (by decide)
    · exact ⟨t, ht⟩
  · intro c hcn hcc
    obtain ⟨x, hx⟩ := transform_get_num cols tc r0 c hcn hcc
    have hcmem : c ∈ numericCols.filter (fun c => cols.contains c) :=
      List.mem_filter.mpr ⟨List.elem_iff.mp hcn, hcc⟩
    have hpred := List.all_eq_true.mp hs3 c hcmem
    rw [hx] at hpred
    rcases coerceNumeric_shape x with hnan | ⟨q, hq⟩
    · rw [hnan] at hpred
      exact absurd hpred (by decide)
    · exact ⟨q, hx.trans hq⟩

/-! ### C3, C4, C8: the cleaner's guarantees -/

/-- A cleaning input in the shape the pipeline feeds the cleaner (public
schema after the `timing → timestamp` rename); its second row has an
uncoercible ridership value and is dropped. -/
def cleanDemoInput : DataFrame :=
  ⟨["route_id", "city", "bus_stop", "ridership", "timestamp"],
   [[("route_id", .str "R1"), ("city", .str "Pune"), ("bus_stop", .str "S1"),
     ("ridership", .num ⟨120, 1⟩), ("timestamp", .str "2025-01-01 08:10:00")],
    [("route_id", .str "R2"), ("city", .str "Pune"), ("bus_stop", .str "S2"),
     ("ridership", .str "not_a_number"), ("timestamp", .str "2025-01-01 09:00:00")]]⟩

/-- C3: every row surviving `validate_and_clean` carries a successfully
parsed (datetime-valued, hence non-null) value in the time column, and a
numeric value in every declared numeric column the frame actually has; a
row failing numeric coercion is thus never retained with a nulled field —
it is absent from the output — and the cleaner is a total function, so no
error is raised for per-row losses. -/
theorem clean_output_valid_c3 (df : DataFrame) (tc : String)
    (htc : df.cols.contains tc = true) (hdisj : numericCols.contains tc = false) :
    ∀ r ∈ (validate_and_clean df tc).2.rows,
      (∃ n, Row.get r tc = .dt n) ∧
      (∀ c, numericCols.contains c = true → df.cols.contains c = true →
        ∃ q, Row.get r c = .num q) := by
  intro r hr
  rw [validate_and_clean_rows df tc htc] at hr
  obtain ⟨r0, _, hr0⟩ := List.mem_filterMap.mp hr
  exact cleanRow_some_fields df.cols tc hdisj r0 r hr0

theorem clean_output_valid_c3_witness :
    ∃ n, Row.get ((validate_and_clean cleanDemoInput "timestamp").2.rows.getD 0 [])
      "timestamp" = .dt n :=
  (clean_output_valid_c3 cleanDemoInput "timestamp" (by decide) (by decide)
    ((validate_and_clean cleanDemoInput "timestamp").2.rows.getD 0 []) (by decide)).1

/-- A cleaning input whose single row has a null `route_id` but a valid
timestamp and a valid ridership value. -/
def nullRouteInput : DataFrame :=
  ⟨["route_id", "city", "bus_stop", "ridership", "timestamp"],
   [[("route_id", .nan), ("city", .str "Pune"), ("bus_stop", .str "S1"),
     ("ridership", .num ⟨120, 1⟩), ("timestamp", .str "2025-01-01 08:10:00")]]⟩

/-- C4 counterexample: cleaning `nullRouteInput` keeps its row, and the
surviving row still has a null in the required field `route_id` — the
cleaner does not establish the no-null invariant over the full
required-field set. -/
theorem clean_keeps_null_required_c4 :
    (validate_and_clean nullRouteInput "timestamp").2.rows.length = 1 ∧
    Row.get ((validate_and_clean nullRouteInput "timestamp").2.rows.getD 0 [])
      "route_id" = .nan := by
  constructor
  · decide
  · decide

/-- C4 as amended: after cleaning, no surviving record contains a null in
the time column or in any declared numeric field present in its schema
(ridership; avg_speed; congestion_index); nulls in the remaining required
fields (`route_id`, `city`, `bus_stop`) can survive. -/
theorem clean_no_null_time_numeric_c4 (df : DataFrame) (tc : String)
    (htc : df.cols.contains tc = true) (hdisj : numericCols.contains tc = false) :
    ∀ r ∈ (validate_and_clean df tc).2.rows,
      (Row.get r tc).isna = false ∧
      (∀ c, numericCols.contains c = true → df.cols.contains c = true →
        (Row.get r c).isna = false) := by
  intro r hr
  rw [validate_and_clean_rows df tc htc] at hr
  obtain ⟨r0, _, hr0⟩ := List.mem_filterMap.mp hr
  obtain ⟨⟨n, hn⟩, hnum⟩ := cleanRow_some_fields df.cols tc hdisj r0 r hr0
  refine ⟨by rw [hn]; rfl, fun c hcn hcc => ?_⟩
  obtain ⟨q, hq⟩ := hnum c hcn hcc
  rw [hq]
  rfl

theorem clean_no_null_time_numeric_c4_witness :
    ((Row.get ((validate_and_clean cleanDemoInput "timestamp").2.rows.getD 0 [])
      "timestamp").isna = false) :=
  (clean_no_null_time_numeric_c4 cleanDemoInput "timestamp" (by decide) (by decide)
    ((validate_and_clean cleanDemoInput "timestamp").2.rows.getD 0 []) (by decide)).1

theorem filterMap_sublist_map (f : Row → Option Row) (g : Row → Row) (l : List Row)
    (hfg : ∀ a b, f a = some b → b = g a) : (l.filterMap f).Sublist (l.map g) := by
  induction l with
  | nil => simp
  | cons a l ih =>
    simp only [List.filterMap_cons, List.map_cons]
    cases hfa : f a with
    | none => exact ih.cons (g a)
    | some b =>
      rw [hfg a b hfa]
      exact ih.cons₂ (g a)

/-- C8: `validate_and_clean` returns the caller's frame unchanged (the
first `dropna` copies, so nothing the function does lands on the caller's
object), and its output rows are an order-preserving selection of the
input rows: the `filterMap` of the per-row cleaning function, a sublist of
the transformed input sequence in input order. -/
theorem clean_pure_order_preserving_c8 (df : DataFrame) (tc : String)
    (htc : df.cols.contains tc = true) :
    (validate_and_clean df tc).1 = df ∧
    (validate_and_clean df tc).2.rows = df.rows.filterMap (cleanRow df.cols tc) ∧
    ((validate_and_clean df tc).2.rows).Sublist
      (df.rows.map (transformRow df.cols tc)) := by
  refine ⟨rfl, validate_and_clean_rows df tc htc, ?_⟩
  rw [validate_and_clean_rows df tc htc]
  exact filterMap_sublist_map _ _ _
    (fun a b hab => (cleanRow_some df.cols tc a b hab).2)

theorem clean_pure_order_preserving_c8_witness :
    (validate_and_clean cleanDemoInput "timestamp").1 = cleanDemoInput :=
  (clean_pure_order_preserving_c8 cleanDemoInput "timestamp" (by decide)).1

/-! ### C1: the temporal join -/

/-- Columns of a cleaned public frame after the hour-bucket column is
added. -/
def pubColsH : List String :=
  ["route_id", "city", "bus_stop", "ridership", "timestamp", "timestamp_hour"]

def trafColsH : List String :=
  ["route_id", "avg_speed", "congestion_index", "timestamp", "timestamp_hour"]

/-- A cleaned public row with its hour bucket appended. -/
def pubRowH (p : PubRec) : Row :=
  PubRec.toRow p ++ [("timestamp_hour", .dt (floorHour p.ts))]

def trafRowH (t : TrafRec) : Row :=
  TrafRec.toRow t ++ [("timestamp_hour", .dt (floorHour t.ts))]

theorem dt_beq (a b : Int) : ((Cell.dt a : Cell) == Cell.dt b) = (a == b) := by
  by_cases h : a = b
  · subst h
    simp
  · have h1 : ((Cell.dt a : Cell) == Cell.dt b) = false := by
      rw [beq_eq_false_iff_ne]
      exact fun hh => h (Cell.dt.inj hh)
    have h2 : (a == b) = false := by
      rw [beq_eq_false_iff_ne]
      exact h
    rw [h1, h2]

theorem pred_eq_joinMatch (p : PubRec) (t : TrafRec) :
    mergeRowPred ["route_id", "timestamp_hour"] (pubRowH p) (trafRowH t)
      = joinMatch p t := by
  show ((p.route_id == t.route_id)
      && ((Cell.dt (floorHour p.ts) == Cell.dt (floorHour t.ts)) && true))
      = joinMatch p t
  rw [Bool.and_true, dt_beq]
  rfl

theorem rename_combine (p : PubRec) (t : TrafRec) :
    rowRename "timestamp_hour" "event_hour"
      (mergeRowCombine pubColsH trafColsH ["route_id", "timestamp_hour"]
        "_public" "_traffic" (pubRowH p) (trafRowH t))
      = unifiedRow p t := rfl

theorem merged_inner_eq (p : PubRec) (ts : List TrafRec) :
    List.map (rowRename "timestamp_hour" "event_hour")
      (List.map (mergeRowCombine pubColsH trafColsH ["route_id", "timestamp_hour"]
          "_public" "_traffic" (pubRowH p))
        (List.filter (mergeRowPred ["route_id", "timestamp_hour"] (pubRowH p))
          (List.map trafRowH ts)))
    = List.map (fun t => unifiedRow p t) (List.filter (fun t => joinMatch p t) ts) := by
  induction ts with
  | nil => rfl
  | cons t ts iht =>
    simp only [List.map_cons, List.filter_cons, pred_eq_joinMatch]
    cases hm : joinMatch p t with
    | true =>
      simp only [eq_self_iff_true, if_true, List.map_cons]
      rw [rename_combine, iht]
    | false =>
      simp only [Bool.false_eq_true, if_false]
      exact iht

theorem merged_rows_eq (ps : List PubRec) (ts : List TrafRec) :
    ((DataFrame.merge ⟨pubColsH, ps.map pubRowH⟩ ⟨trafColsH, ts.map trafRowH⟩
        ["route_id", "timestamp_hour"] "_public" "_traffic").renameCol
      "timestamp_hour" "event_hour").rows
    = ps.flatMap (fun p =>
        (ts.filter (fun t => joinMatch p t)).map (fun t => unifiedRow p t)) := by
  simp only [DataFrame.merge, DataFrame.renameCol]
  induction ps with
  | nil => rfl
  | cons p ps ih =>
    simp only [List.map_cons, List.flatMap_cons, List.map_append]
    rw [ih]
    congr 1
    exact merged_inner_eq p ts

/-- C1: on cleaned inputs, the unified table contains exactly one row per
pair of a public record and a traffic record whose `route_id` cells are
equal and whose timestamps floor to the same hour: the output rows are
precisely, in order, the per-left-record cross products with the matching
right records (no deduplication), so groups sharing a join key contribute
their full cross product and a record with no counterpart contributes
nothing; the output size is the sum of per-record match counts; and every
output row's `event_hour` is the common hour-floor of both contributing
timestamps. -/
theorem join_cross_product_c1 (ps : List PubRec) (ts : List TrafRec) :
    ((build_unified_table (pubFrame ps) (trafFrame ts)).2.2.rows
      = ps.flatMap (fun p =>
          (ts.filter (fun t => joinMatch p t)).map (fun t => unifiedRow p t))) ∧
    ((build_unified_table (pubFrame ps) (trafFrame ts)).2.2.rows.length
      = (ps.map (fun p => (ts.filter (fun t => joinMatch p t)).length)).sum) ∧
    (∀ p t, joinMatch p t = true →
      Row.get (unifiedRow p t) "event_hour" = .dt (floorHour p.ts) ∧
      Row.get (unifiedRow p t) "event_hour" = .dt (floorHour t.ts) ∧
      p.route_id = t.route_id) := by
  have hpub : (pubFrame ps).assign "timestamp_hour"
        (fun r => floorHourCell (Row.get r "timestamp"))
      = ⟨pubColsH, ps.map pubRowH⟩ := by
    simp only [DataFrame.assign, pubFrame, List.map_map]
    rfl
  have htraf : (trafFrame ts).assign "timestamp_hour"
        (fun r => floorHourCell (Row.get r "timestamp"))
      = ⟨trafColsH, ts.map trafRowH⟩ := by
    simp only [DataFrame.assign, trafFrame, List.map_map]
    rfl
  have hmain : (build_unified_table (pubFrame ps) (trafFrame ts)).2.2.rows
      = ps.flatMap (fun p =>
          (ts.filter (fun t => joinMatch p t)).map (fun t => unifiedRow p t)) := by
    simp only [build_unified_table]
    rw [hpub, htraf]
    exact merged_rows_eq ps ts
  refine ⟨hmain, ?_, ?_⟩
  · rw [hmain, List.length_flatMap]
    congr 1
    apply List.map_congr_left
    intro p _
    simp [List.length_map]
  · intro p t hm
    unfold joinMatch at hm
    rw [Bool.and_eq_true] at hm
    have hfl : floorHour p.ts = floorHour t.ts := beq_iff_eq.mp hm.2
    refine ⟨rfl, ?_, beq_iff_eq.mp hm.1⟩
    rw [← hfl]
    rfl

def scenarioPubRec : PubRec :=
  ⟨.str "R1", .str "Pune", .str "S1", .num ⟨120, 1⟩, 1735719000⟩

def scenarioTrafRec : TrafRec :=
  ⟨.str "R1", .num ⟨185, 10⟩, .num ⟨7, 10⟩, 1735721100⟩

theorem join_cross_product_c1_witness :
    (build_unified_table (pubFrame [scenarioPubRec]) (trafFrame [scenarioTrafRec])).2.2.rows
      = [unifiedRow scenarioPubRec scenarioTrafRec] ∧
    Row.get (unifiedRow scenarioPubRec scenarioTrafRec) "event_hour" = .dt 1735718400 := by
  have h := join_cross_product_c1 [scenarioPubRec] [scenarioTrafRec]
  constructor
  · rw [h.1]
    decide
  · exact (h.2.2 scenarioPubRec scenarioTrafRec (by decide)).1.trans (by decide)

/-! ### C2 and C6: the report stage -/

/-- C2 (code bug, evaluated at the spec scenario inputs): the unified
table the pipeline persists has a plain `city` column — `city` exists only
on the public side, so the merge suffixes never touch it and no
`city_public` column exists — and `create_summary_report` on that table
fails with a `KeyError` on `city_public` instead of succeeding; the run
errors and no report is written.  The scenario pair does join into one row
with `event_hour = 2025-01-01 08:00:00`. -/
theorem summary_report_city_public_keyerror_c2 :
    (run_pipeline scenarioPublicRaw scenarioTrafficRaw emptyDest).2
      = some (.reportKeyError "city_public") ∧
    ((run_pipeline scenarioPublicRaw scenarioTrafficRaw emptyDest).1.dbTable.getD
        ⟨[], []⟩).cols
      = ["route_id", "city", "bus_stop", "ridership", "timestamp_public",
         "event_hour", "avg_speed", "congestion_index", "timestamp_traffic"] ∧
    ((run_pipeline scenarioPublicRaw scenarioTrafficRaw emptyDest).1.dbTable.getD
        ⟨[], []⟩).cols.contains "city_public" = false ∧
    create_summary_report
        ((run_pipeline scenarioPublicRaw scenarioTrafficRaw emptyDest).1.dbTable.getD
          ⟨[], []⟩)
      = .error "city_public" ∧
    ((run_pipeline scenarioPublicRaw scenarioTrafficRaw emptyDest).1.dbTable.getD
        ⟨[], []⟩).rows.length = 1 ∧
    Row.get (((run_pipeline scenarioPublicRaw scenarioTrafficRaw emptyDest).1.dbTable.getD
        ⟨[], []⟩).rows.getD 0 []) "event_hour" = .dt 1735718400 ∧
    (run_pipeline scenarioPublicRaw scenarioTrafficRaw emptyDest).1.report = none := by
  refine ⟨by decide, by decide, by decide, by rfl, by decide, by decide, by decide⟩

/-- C6 (code bug, evaluated at the spec scenario inputs): the unified CSV
and database writes are identical regardless of the destination's prior
state, but the report write is never reached — `create_summary_report`
raises before writing — so the report destination keeps whatever a
previous run left there and the run's persisted outputs are not determined
solely by the raw inputs; all three destinations are not replaced. -/
theorem report_not_replaced_c6 :
    (run_pipeline scenarioPublicRaw scenarioTrafficRaw emptyDest).1.processedCsv
      = (run_pipeline scenarioPublicRaw scenarioTrafficRaw staleDest).1.processedCsv ∧
    (run_pipeline scenarioPublicRaw scenarioTrafficRaw emptyDest).1.dbTable
      = (run_pipeline scenarioPublicRaw scenarioTrafficRaw staleDest).1.dbTable ∧
    (run_pipeline scenarioPublicRaw scenarioTrafficRaw emptyDest).2
      = (run_pipeline scenarioPublicRaw scenarioTrafficRaw staleDest).2 ∧
    (run_pipeline scenarioPublicRaw scenarioTrafficRaw emptyDest).1.report = none ∧
    (run_pipeline scenarioPublicRaw scenarioTrafficRaw staleDest).1.report
      = staleDest.report ∧
    staleDest.report ≠ none := by
  refine ⟨?_, ?_, ?_, ?_, ?_, ?_⟩ <;> decide
